import Mathlib

/-!
Verification development for the health-coach API gateway (src/main.py).

The Python source is shallowly embedded: pure functions become Lean
functions, ambient globals (the Firestore client, the configured API key,
the network) become explicit parameters, and Python exceptions become an
explicit error type threaded through Except.  Each request handler also
returns the ordered list of external-effect events it performs, so that
ordering properties can be stated.
-/

set_option maxRecDepth 40000
set_option linter.unusedVariables false

deriving instance DecidableEq for Except

/-! ## String helpers (kernel-reducible replacements for Python string ops) -/

/-- Character-list version of "p is a leading segment of s". -/
def listLeads : List Char → List Char → Bool
  | [], _ => true
  | _ :: _, [] => false
  | a :: as, b :: bs => a == b && listLeads as bs

/-- Does the character list contain pat as a contiguous segment? -/
def listHasSub (pat : List Char) : List Char → Bool
  | [] => pat.isEmpty
  | l => listLeads pat l || (match l with | [] => false | _ :: t => listHasSub pat t)

/-- Substring test: does s contain pat? -/
def strContains (s pat : String) : Bool := listHasSub pat.data s.data

/-- Python str.startswith. -/
def strLeads (p s : String) : Bool := listLeads p.data s.data

/-- Python ", ".join over a list of strings (the separator used throughout main.py). -/
def commaJoin : List String → String
  | [] => ""
  | [s] => s
  | s :: rest => s ++ ", " ++ commaJoin rest

/-- Python str.split on a single space character, over the character list. -/
def splitSpaceChars : List Char → List (List Char)
  | [] => [[]]
  | c :: rest =>
    let r := splitSpaceChars rest
    if c = ' ' then [] :: r
    else
      match r with
      | [] => [[c]]
      | w :: ws => (c :: w) :: ws

/-- Python auth_header.split(" "). -/
def pySplitSpace (s : String) : List String :=
  (splitSpaceChars s.data).map (fun cs => String.mk cs)

/-! ## JSON values and json.dumps with sort_keys=True (main.py lines 109-113) -/

/-- JSON-like Python values carried in open payload mappings. -/
inductive Json where
  | null
  | bool (b : Bool)
  | num (n : Int)
  | str (s : String)
  | arr (xs : List Json)
  | obj (fields : List (String × Json))

/-- Flat atomic Python values; the open current_body_composition mapping of a
NutritionRequest (Dict[str, Any] in the source) is modelled with atomic values. -/
inductive PyAtom where
  | str (s : String)
  | num (n : Int)
  | bool (b : Bool)
deriving DecidableEq

def PyAtom.toJson : PyAtom → Json
  | PyAtom.str s => Json.str s
  | PyAtom.num n => Json.num n
  | PyAtom.bool b => Json.bool b

/-- Python repr of an atomic value, as rendered inside an f-string for a dict. -/
def pyReprAtom : PyAtom → String
  | PyAtom.str s => "\x27" ++ s ++ "\x27"
  | PyAtom.num n => toString n
  | PyAtom.bool b => if b then "True" else "False"

/-- Python repr of a flat string-keyed dict of atoms, as an f-string renders it. -/
def pyReprAtomDict (fs : List (String × PyAtom)) : String :=
  "\x7b" ++ commaJoin (fs.map (fun p => "\x27" ++ p.1 ++ "\x27: " ++ pyReprAtom p.2)) ++ "\x7d"

mutual

/-- Python repr of a general JSON-like value (used when f-strings render values
pulled out of an open mapping). -/
def pyReprJson : Json → String
  | Json.null => "None"
  | Json.bool b => if b then "True" else "False"
  | Json.num n => toString n
  | Json.str s => "\x27" ++ s ++ "\x27"
  | Json.arr xs => "[" ++ commaJoin (pyReprJsonList xs) ++ "]"
  | Json.obj fs => "\x7b" ++ commaJoin (pyReprJsonFields fs) ++ "\x7d"

def pyReprJsonList : List Json → List String
  | [] => []
  | j :: js => pyReprJson j :: pyReprJsonList js

def pyReprJsonFields : List (String × Json) → List String
  | [] => []
  | (k, v) :: fs => ("\x27" ++ k ++ "\x27: " ++ pyReprJson v) :: pyReprJsonFields fs

end

/-- Python str of a JSON-like value (top-level strings are rendered bare). -/
def pyStrJson : Json → String
  | Json.str s => s
  | j => pyReprJson j

/-- Python f-string rendering of dict.get(key): a missing key renders as None. -/
def pyStrOfOpt : Option Json → String
  | none => "None"
  | some j => pyStrJson j

/-- Python dict.get on a string-keyed mapping. -/
def pyGet (d : List (String × Json)) (k : String) : Option Json :=
  (d.find? (fun p => p.1 == k)).map Prod.snd

/-- Elements of dict.get(key, []) viewed as a list of strings for ", ".join;
the handlers only ever store lists of strings under these keys. -/
def pyStrList (v : Option Json) : List String :=
  match v with
  | some (Json.arr xs) => xs.map pyStrJson
  | _ => []

mutual

/-- Serialization step of json.dumps with the default separators. -/
def serializeJson : Json → String
  | Json.null => "null"
  | Json.bool b => if b then "true" else "false"
  | Json.num n => toString n
  | Json.str s => "\"" ++ s ++ "\""
  | Json.arr xs => "[" ++ commaJoin (serializeJsonList xs) ++ "]"
  | Json.obj fs => "\x7b" ++ commaJoin (serializeJsonFields fs) ++ "\x7d"

def serializeJsonList : List Json → List String
  | [] => []
  | j :: js => serializeJson j :: serializeJsonList js

def serializeJsonFields : List (String × Json) → List String
  | [] => []
  | (k, v) :: fs => ("\"" ++ k ++ "\": " ++ serializeJson v) :: serializeJsonFields fs

end

/-- Ordering of object entries by key, as sorted() orders dict items
lexicographically by their string keys. -/
def keyLE (a b : String × Json) : Prop := a.1 ≤ b.1

instance : DecidableRel keyLE := fun a b => inferInstanceAs (Decidable (a.1 ≤ b.1))

instance : IsTotal (String × Json) keyLE := ⟨fun a b => le_total a.1 b.1⟩

instance : IsTrans (String × Json) keyLE := ⟨fun _ _ _ h₁ h₂ => le_trans h₁ h₂⟩

/-- Sorting of an object field list by key. -/
def insortKeys (fs : List (String × Json)) : List (String × Json) :=
  List.insertionSort keyLE fs

mutual

/-- Key canonicalization of sort_keys=True: every object node has its field
list sorted by key, recursively. -/
def sortJson : Json → Json
  | Json.null => Json.null
  | Json.bool b => Json.bool b
  | Json.num n => Json.num n
  | Json.str s => Json.str s
  | Json.arr xs => Json.arr (sortJsonList xs)
  | Json.obj fs => Json.obj (insortKeys (sortJsonFields fs))

def sortJsonList : List Json → List Json
  | [] => []
  | j :: js => sortJson j :: sortJsonList js

def sortJsonFields : List (String × Json) → List (String × Json)
  | [] => []
  | (k, v) :: fs => (k, sortJson v) :: sortJsonFields fs

end

/-- json.dumps(data, sort_keys=True): canonicalize key order, then serialize. -/
def Json.dumps (j : Json) : String := serializeJson (sortJson j)

/-- generate_cache_key (main.py lines 109-113).  hashlib.md5(...).hexdigest() is an
external library call and is modelled by the digest parameter. -/
def generate_cache_key (digest : String → String) (data : Json) : String :=
  digest (Json.dumps data)

/-! ## Cache (main.py lines 115-132) -/

/-- Completion result dict built by call_llm_api on success:
output, model, timestamp. -/
structure LLMResult where
  output : String
  model : String
  timestamp : Int
deriving DecidableEq

/-- A document of the response_cache collection: response plus write timestamp. -/
structure CacheDoc where
  response : LLMResult
  timestamp : Int
deriving DecidableEq

/-- CACHE_TIMEOUT constant (24 hours, main.py line 57). -/
def CACHE_TIMEOUT : Int := 86400

/-- check_cache (main.py lines 115-125).  The Firestore get is the function
argument; it may raise (Except.error).  Note that the source has no
try/except here, so a storage error propagates. -/
def check_cache (get : String → Except String (Option CacheDoc)) (cache_key : String)
    (now : Int) : Except String (Option LLMResult) :=
  match get cache_key with
  | Except.error e => Except.error e
  | Except.ok none => Except.ok none
  | Except.ok (some cache_data) =>
    if now - cache_data.timestamp < CACHE_TIMEOUT then Except.ok (some cache_data.response)
    else Except.ok none

/-- save_to_cache (main.py lines 127-132), as the store-state update it performs. -/
def save_to_cache (store : String → Option CacheDoc) (cache_key : String)
    (response : LLMResult) (now : Int) : String → Option CacheDoc :=
  fun k => if k = cache_key then some { response := response, timestamp := now } else store k

/-- View of a non-raising concrete store as a Firestore get. -/
def liftStore (store : String → Option CacheDoc) : String → Except String (Option CacheDoc) :=
  fun k => Except.ok (store k)

/-! ## Request models (main.py lines 60-99, 325-328) -/

/-- RoutineRequest (main.py lines 60-67). -/
structure RoutineRequest where
  peak_mode : String
  sleep_chronotype : String
  nature_of_commutes : String
  nature_of_traveling : String
  easiness_of_regimen : Int
  observation_level : Int
  challenges : List String
deriving DecidableEq

/-- NutritionRequest (main.py lines 69-92). -/
structure NutritionRequest where
  current_body_composition : List (String × PyAtom)
  target_goal : String
  activity_level : String
  daily_step_count : Int
  resting_metabolic_rate : Int
  macronutrient_preferences : String
  intermittent_fasting : Bool
  num_meals_per_day : Int
  eating_window : String
  protein_source_preference : String
  carb_tolerance : String
  fat_preference : String
  food_sensitivities : List String
  cultural_dietary_category : String
  cooking_ability : String
  meal_prep_frequency : String
  eating_out_frequency : String
  kitchen_access : String
  existing_supplements : List String
  willingness_to_supplement : Bool
  water_intake_target : String
  caffeine_consumption : String
  electrolyte_needs : String
deriving DecidableEq

/-- The request_data dict flowing into construct_nutrition_prompt: all
NutritionRequest fields, plus the two keys the nutrition handler may add
from the stored routine request (absent on the raw request.dict()). -/
structure NutritionData where
  current_body_composition : List (String × PyAtom)
  target_goal : String
  activity_level : String
  daily_step_count : Int
  resting_metabolic_rate : Int
  macronutrient_preferences : String
  intermittent_fasting : Bool
  num_meals_per_day : Int
  eating_window : String
  protein_source_preference : String
  carb_tolerance : String
  fat_preference : String
  food_sensitivities : List String
  cultural_dietary_category : String
  cooking_ability : String
  meal_prep_frequency : String
  eating_out_frequency : String
  kitchen_access : String
  existing_supplements : List String
  willingness_to_supplement : Bool
  water_intake_target : String
  caffeine_consumption : String
  electrolyte_needs : String
  peak_mode : Option String
  challenges : Option (List String)
deriving DecidableEq

/-- request.dict() of a NutritionRequest: the plain field dict, with no
peak_mode or challenges key. -/
def NutritionRequest.dict (r : NutritionRequest) : NutritionData where
  current_body_composition := r.current_body_composition
  target_goal := r.target_goal
  activity_level := r.activity_level
  daily_step_count := r.daily_step_count
  resting_metabolic_rate := r.resting_metabolic_rate
  macronutrient_preferences := r.macronutrient_preferences
  intermittent_fasting := r.intermittent_fasting
  num_meals_per_day := r.num_meals_per_day
  eating_window := r.eating_window
  protein_source_preference := r.protein_source_preference
  carb_tolerance := r.carb_tolerance
  fat_preference := r.fat_preference
  food_sensitivities := r.food_sensitivities
  cultural_dietary_category := r.cultural_dietary_category
  cooking_ability := r.cooking_ability
  meal_prep_frequency := r.meal_prep_frequency
  eating_out_frequency := r.eating_out_frequency
  kitchen_access := r.kitchen_access
  existing_supplements := r.existing_supplements
  willingness_to_supplement := r.willingness_to_supplement
  water_intake_target := r.water_intake_target
  caffeine_consumption := r.caffeine_consumption
  electrolyte_needs := r.electrolyte_needs
  peak_mode := none
  challenges := none

/-- request.dict() of a RoutineRequest as a JSON object, in field order. -/
def RoutineRequest.toDict (r : RoutineRequest) : List (String × Json) :=
  [("peak_mode", Json.str r.peak_mode),
   ("sleep_chronotype", Json.str r.sleep_chronotype),
   ("nature_of_commutes", Json.str r.nature_of_commutes),
   ("nature_of_traveling", Json.str r.nature_of_traveling),
   ("easiness_of_regimen", Json.num r.easiness_of_regimen),
   ("observation_level", Json.num r.observation_level),
   ("challenges", Json.arr (r.challenges.map Json.str))]

/-- request.dict() of a NutritionRequest as a JSON object, in field order. -/
def NutritionRequest.toDict (r : NutritionRequest) : List (String × Json) :=
  [("current_body_composition", Json.obj (r.current_body_composition.map
      (fun p => (p.1, p.2.toJson)))),
   ("target_goal", Json.str r.target_goal),
   ("activity_level", Json.str r.activity_level),
   ("daily_step_count", Json.num r.daily_step_count),
   ("resting_metabolic_rate", Json.num r.resting_metabolic_rate),
   ("macronutrient_preferences", Json.str r.macronutrient_preferences),
   ("intermittent_fasting", Json.bool r.intermittent_fasting),
   ("num_meals_per_day", Json.num r.num_meals_per_day),
   ("eating_window", Json.str r.eating_window),
   ("protein_source_preference", Json.str r.protein_source_preference),
   ("carb_tolerance", Json.str r.carb_tolerance),
   ("fat_preference", Json.str r.fat_preference),
   ("food_sensitivities", Json.arr (r.food_sensitivities.map Json.str)),
   ("cultural_dietary_category", Json.str r.cultural_dietary_category),
   ("cooking_ability", Json.str r.cooking_ability),
   ("meal_prep_frequency", Json.str r.meal_prep_frequency),
   ("eating_out_frequency", Json.str r.eating_out_frequency),
   ("kitchen_access", Json.str r.kitchen_access),
   ("existing_supplements", Json.arr (r.existing_supplements.map Json.str)),
   ("willingness_to_supplement", Json.bool r.willingness_to_supplement),
   ("water_intake_target", Json.str r.water_intake_target),
   ("caffeine_consumption", Json.str r.caffeine_consumption),
   ("electrolyte_needs", Json.str r.electrolyte_needs)]

/-- FollowUpRequest (main.py lines 95-99). -/
structure FollowUpRequest where
  user_id : String
  original_request_type : String
  original_request_data : List (String × Json)
  follow_up_question : String

/-- ChatRequest (main.py lines 325-328); a body with user_id omitted gets the
pydantic default "anonymous". -/
structure ChatRequest where
  message : String
  user_id : String := "anonymous"
  conversation_history : List Json := []

/-- A document of the user_requests collection.  Fields are merged, so each of
the two request snapshots may be present independently. -/
structure UserDoc where
  last_routine_request : Option RoutineRequest := none
  last_nutrition_request : Option NutritionRequest := none
  timestamp : Int := 0
deriving DecidableEq

/-- The user_requests collection: caller identity to stored document. -/
def UserStore : Type := String → Option UserDoc

/-- A document of the conversations collection. -/
structure ConvDoc where
  last_message : String
  last_response : String
  timestamp : Int
deriving DecidableEq

/-- The conversations collection. -/
def ConvStore : Type := String → Option ConvDoc

/-! ## Identity helpers (main.py lines 102-106) -/

/-- get_token_from_header (main.py lines 102-106): the optional Authorization
header value to the optional bearer token. -/
def get_token_from_header (authHeader : Option String) : Option String :=
  match authHeader with
  | some h => if strLeads ("Bearer ") h then some ((pySplitSpace h).getD 1 ("")) else none
  | none => none

/-- Python x or default for an optional string: None and the empty string are
falsy and fall through to the default. -/
def pyOr (x : Option String) (dflt : String) : String :=
  match x with
  | some s => if s = "" then dflt else s
  | none => dflt

/-- Python hasattr(d, name) on a dict instance: true only for the attributes of
the dict type itself (its methods); a data key stored in the dict is never an
attribute of it. -/
def dict_hasattr (attr : String) : Bool :=
  ["clear", "copy", "fromkeys", "get", "items", "keys", "pop",
   "popitem", "setdefault", "update", "values"].contains attr

/-! ## Prompt builders (main.py lines 216-369)

Each builder takes the ambient Firestore client db as an explicit first
argument, since it is a global the Python functions could read; only
construct_chat_prompt actually does. -/

/-- construct_routine_prompt (main.py lines 216-245). -/
def construct_routine_prompt (db : UserStore) (data : RoutineRequest) : String :=
  "\nCreate a personalized daily routine for a client with the following preferences:\n\nPeak Mode: "
    ++ data.peak_mode
    ++ "\nSleep Chronotype: " ++ data.sleep_chronotype
    ++ "\nNature of Commutes: " ++ data.nature_of_commutes
    ++ "\nNature of Traveling: " ++ data.nature_of_traveling
    ++ "\nEasiness of Regimen: " ++ toString data.easiness_of_regimen ++ " (1-10, where 10 is easiest)"
    ++ "\nObservation Level: " ++ toString data.observation_level ++ " (1-10, where 10 is highest)"
    ++ "\nChallenges: " ++ commaJoin data.challenges
    ++ "\n\nPresent your response in a conversational, personalized format structured by time periods of the day:\n\nPre-First Wind (Upon Waking Up):\nFirst Wind (Morning Work Session):\nMidday Slump (Lunch Break):\nPre-Second Wind (Afternoon Work Session):\nSecond Wind (Evening Routine):\nUnwind (Before Bed):\n\nFor each time period:\n1. Explain the significance of this energy phase\n2. Provide 2-3 specific recommendations with brief explanations\n3. Connect recommendations directly to their challenges and peak mode\n4. Use a warm, conversational tone as if speaking directly to the client\n\nEnd with a brief summary of how following this routine will help address their specific challenges and support their peak mode goal.\n"

/-- construct_nutrition_prompt (main.py lines 247-290).  The source guards the
challenges line with hasattr(data, 'challenges'), evaluated on a dict. -/
def construct_nutrition_prompt (db : UserStore) (data : NutritionData) : String :=
  let challenges_text :=
    if dict_hasattr ("challenges") && !(data.challenges.getD []).isEmpty then
      "Challenges: " ++ commaJoin (data.challenges.getD [])
    else ""
  let peak_mode := data.peak_mode.getD ("Physique")
  "\nCreate a personalized nutrition plan for a client with the following parameters:\n\nTarget Goal: "
    ++ data.target_goal
    ++ "\nCurrent Body Composition: " ++ pyReprAtomDict data.current_body_composition
    ++ "\nActivity Level: " ++ data.activity_level
    ++ "\nDaily Step Count: " ++ toString data.daily_step_count
    ++ "\nResting Metabolic Rate: " ++ toString data.resting_metabolic_rate
    ++ "\nMacronutrient Preferences: " ++ data.macronutrient_preferences
    ++ "\nProtein Source Preference: " ++ data.protein_source_preference
    ++ "\nCarb Tolerance: " ++ data.carb_tolerance
    ++ "\nFat Preference: " ++ data.fat_preference
    ++ "\nFood Sensitivities: "
    ++ (if !data.food_sensitivities.isEmpty then commaJoin data.food_sensitivities else "None")
    ++ "\nExisting Supplements: " ++ commaJoin data.existing_supplements
    ++ "\nWater Intake Target: " ++ data.water_intake_target
    ++ "\nPeak Mode: " ++ peak_mode
    ++ "\n" ++ challenges_text
    ++ "\n\nInstead of presenting this as a structured nutrition document, respond in a personalized, conversational format organized by time periods of the day. Format your response like this:\n\nBased on your "
    ++ peak_mode
    ++ " focus and your profile, here\x27s a personalized nutrition plan that aligns with your daily routine:\n\nPre-First Wind (Upon Waking Up) - This is the time to gently awaken your body:\n[Nutrition Strategy]: [Brief explanation connecting to their physiology and goals]\n* Choice 1: [Specific food/meal option with details]\n* Choice 2: [Alternative option with details]\nThis approach helps with [specific goal or challenge] by [explanation of benefits].\n\nFirst Wind (Morning Work Session) - When your energy begins to rise:\n[Continue this pattern for each time period]\n\nInclude a brief note about hydration and supplementation that integrates with their daily routine and supports their specific goals.\n\nYour response should feel like personalized coaching advice rather than a clinical nutrition document.\n"

/-- construct_follow_up_prompt (main.py lines 292-323). -/
def construct_follow_up_prompt (db : UserStore) (data : FollowUpRequest) : String :=
  let original_type := data.original_request_type
  let original_data := data.original_request_data
  let follow_up_question := data.follow_up_question
  let context :=
    if original_type = "routine" then
      "\n        The client previously received a daily routine recommendation with these parameters:\n        Peak Mode: "
        ++ pyStrOfOpt (pyGet original_data ("peak_mode"))
        ++ "\n        Sleep Chronotype: " ++ pyStrOfOpt (pyGet original_data ("sleep_chronotype"))
        ++ "\n        Challenges: " ++ commaJoin (pyStrList (pyGet original_data ("challenges")))
        ++ "\n        "
    else
      "\n        The client previously received a nutrition plan with these parameters:\n        Target Goal: "
        ++ pyStrOfOpt (pyGet original_data ("target_goal"))
        ++ "\n        Macronutrient Preferences: " ++ pyStrOfOpt (pyGet original_data ("macronutrient_preferences"))
        ++ "\n        Carb Tolerance: " ++ pyStrOfOpt (pyGet original_data ("carb_tolerance"))
        ++ "\n        Protein Source: " ++ pyStrOfOpt (pyGet original_data ("protein_source_preference"))
        ++ "\n        "
  "\n    " ++ context
    ++ "\n    \n    Now they\x27re asking: \"" ++ follow_up_question
    ++ "\"\n    \n    Respond in the same conversational, personalized format organized by time periods of the day.\n    Ensure your response directly addresses their question while maintaining continuity with their previous plan.\n    Keep the warm, friendly tone and provide specific, actionable recommendations with explanations of the benefits.\n    "

/-- construct_chat_prompt (main.py lines 331-369).  This builder reads the
user_requests document of the caller from the ambient store db. -/
def construct_chat_prompt (db : UserStore) (data : ChatRequest) : String :=
  let message := data.message
  let user_id := data.user_id
  let user_doc := db user_id
  let user_context :=
    match user_doc with
    | none => ""
    | some user_data =>
      (match user_data.last_routine_request with
        | none => ""
        | some routine =>
          "\n            The user previously created a routine plan with peak mode: "
            ++ routine.peak_mode
            ++ "\n            and identified challenges: " ++ commaJoin routine.challenges
            ++ "\n            ")
        ++
      (match user_data.last_nutrition_request with
        | none => ""
        | some nutrition =>
          "\n            The user previously created a nutrition plan with target goal: "
            ++ nutrition.target_goal
            ++ "\n            and macronutrient preferences: " ++ nutrition.macronutrient_preferences
            ++ "\n            ")
  "\n    " ++ user_context
    ++ "\n    \n    The user has sent the following message: \"" ++ message
    ++ "\"\n    \n    Respond as a health coach in a warm, conversational tone. Be helpful and supportive while providing actionable advice.\n    \n    If they\x27re asking about creating a detailed routine or nutrition plan, suggest they use the dedicated forms in the app for the best personalized experience.\n    \n    If they have a specific health or nutrition question, provide thoughtful guidance based on your expertise, while being careful not to make medical claims.\n    \n    If they mention goals or challenges they\x27re facing, tailor your response to address those specific needs.\n    "

/-! ## Completion client and handlers (main.py lines 135-478) -/

/-- Python exceptions relevant to the embedded control flow. -/
inductive PyExc where
  | httpException (status : Nat) (detail : String)
  | storageError (msg : String)
deriving DecidableEq

/-- Python str(e).  For a fastapi HTTPException this is
"status_code: detail" (the starlette __str__). -/
def PyExc.str : PyExc → String
  | PyExc.httpException st detail => toString st ++ ": " ++ detail
  | PyExc.storageError msg => msg

/-- Outcome of the outbound HTTP POST to the LLM provider for a given prompt:
a 200 response with parsed content and model, a non-200 status with body
text, or an aiohttp.ClientError. -/
inductive NetOutcome where
  | ok (content : String) (model : String)
  | badStatus (status : Nat) (errorText : String)
  | transport (msg : String)
deriving DecidableEq

/-- The typed input_data passed to call_llm_api, one per endpoint string. -/
inductive LLMInput where
  | routineIn (r : RoutineRequest)
  | nutritionIn (d : NutritionData)
  | followUpIn (f : FollowUpRequest)
  | chatIn (c : ChatRequest)

/-- External-effect events of a handler, in execution order. -/
inductive Ev where
  | cacheRead (key : String)
  | cacheWrite (key : String)
  | resolveIdentity
  | contextRead (id : String)
  | contextWrite (id : String)
  | convWrite (id : String)
  | llmCall
deriving DecidableEq

def Ev.isResolve : Ev → Bool
  | Ev.resolveIdentity => true
  | _ => false

def Ev.isStorage : Ev → Bool
  | Ev.cacheRead _ => true
  | Ev.cacheWrite _ => true
  | Ev.contextRead _ => true
  | Ev.contextWrite _ => true
  | Ev.convWrite _ => true
  | _ => false

def Ev.isContext : Ev → Bool
  | Ev.contextRead _ => true
  | Ev.contextWrite _ => true
  | Ev.convWrite _ => true
  | _ => false

def Ev.isLLM : Ev → Bool
  | Ev.llmCall => true
  | _ => false

/-- Did some cache or context access happen strictly before identity resolution
(or without identity ever being resolved)? -/
def storageBeforeIdentity (tr : List Ev) : Bool :=
  (tr.takeWhile (fun e => !e.isResolve)).any Ev.isStorage

/-- Did some context-store access happen strictly before identity resolution
(or without identity ever being resolved)? -/
def contextBeforeIdentity (tr : List Ev) : Bool :=
  (tr.takeWhile (fun e => !e.isResolve)).any Ev.isContext

/-- Number of outbound network calls to the LLM provider in a trace. -/
def countLLM (tr : List Ev) : Nat := (tr.filter Ev.isLLM).length

/-- call_llm_api (main.py lines 135-213).  The prompt is constructed first
(for chat this reads the context store), then the API key is validated
before any network attempt, then the single POST happens inside a
try/except where an aiohttp.ClientError becomes an HTTPException 503 and
any other exception - including the HTTPException raised for a non-200
status - becomes an HTTPException 500. -/
def call_llm_api (db : UserStore) (apiKey : Option String) (net : String → NetOutcome)
    (now : Int) (input : LLMInput) : Except PyExc LLMResult × List Ev :=
  let prompt :=
    match input with
    | LLMInput.routineIn r => construct_routine_prompt db r
    | LLMInput.nutritionIn d => construct_nutrition_prompt db d
    | LLMInput.followUpIn f => construct_follow_up_prompt db f
    | LLMInput.chatIn c => construct_chat_prompt db c
  let promptTrace :=
    match input with
    | LLMInput.chatIn c => [Ev.contextRead c.user_id]
    | _ => []
  match apiKey with
  | none =>
    (Except.error (PyExc.httpException 500
      ("LLM API key not configured. Please set the LLM_API_KEY environment variable.")),
     promptTrace)
  | some _ =>
    match net prompt with
    | NetOutcome.ok content model =>
      (Except.ok { output := content, model := model, timestamp := now },
       promptTrace ++ [Ev.llmCall])
    | NetOutcome.badStatus st errorText =>
      (Except.error (PyExc.httpException 500
        ("Unexpected error: " ++ PyExc.str (PyExc.httpException st ("LLM API error: " ++ errorText)))),
       promptTrace ++ [Ev.llmCall])
    | NetOutcome.transport msg =>
      (Except.error (PyExc.httpException 503 ("Failed to connect to LLM API: " ++ msg)),
       promptTrace ++ [Ev.llmCall])

/-- Construction of request_data in generate_nutrition_plan
(main.py lines 443-451): start from request.dict() and, when the caller has a
stored last routine request, add its peak_mode and challenges keys. -/
def nutrition_request_data (req : NutritionRequest) (user_doc : Option UserDoc) : NutritionData :=
  match user_doc with
  | none => req.dict
  | some user_data =>
    match user_data.last_routine_request with
    | none => req.dict
    | some routine_data =>
      { req.dict with peak_mode := some routine_data.peak_mode,
                      challenges := some routine_data.challenges }

/-- The user_id override in process_chat_message (main.py lines 377-379):
a truthy bearer token replaces the body-supplied user_id. -/
def chat_effective_request (token : Option String) (req : ChatRequest) : ChatRequest :=
  match token with
  | some t => if t = "" then req else { req with user_id := t }
  | none => req

/-- generate_routine (main.py lines 399-426).  Returns the endpoint outcome and
the ordered effect trace.  The cache lookup happens outside the handler's
try/except, so a storage error there propagates to the framework; every
exception inside the try/except is re-raised as HTTPException 500 str(e). -/
def generate_routine (digest : String → String) (cache : String → Except String (Option CacheDoc))
    (db : UserStore) (apiKey : Option String) (net : String → NetOutcome)
    (authHeader : Option String) (req : RoutineRequest) (now : Int) :
    Except PyExc LLMResult × List Ev :=
  let cache_key := generate_cache_key digest (Json.obj req.toDict)
  match check_cache cache cache_key now with
  | Except.error e => (Except.error (PyExc.storageError e), [Ev.cacheRead cache_key])
  | Except.ok (some cached_response) => (Except.ok cached_response, [Ev.cacheRead cache_key])
  | Except.ok none =>
    match call_llm_api db apiKey net now (LLMInput.routineIn req) with
    | (Except.ok response, llmTr) =>
      let user_id := pyOr (get_token_from_header authHeader) ("anonymous")
      (Except.ok response,
       Ev.cacheRead cache_key :: llmTr
         ++ [Ev.cacheWrite cache_key, Ev.resolveIdentity, Ev.contextWrite user_id])
    | (Except.error e, llmTr) =>
      (Except.error (PyExc.httpException 500 (PyExc.str e)),
       Ev.cacheRead cache_key :: llmTr)

/-- generate_nutrition_plan (main.py lines 428-468): cache lookup, then
identity resolution, then the context read and enrichment, then the
completion call, then the cache and context writes. -/
def generate_nutrition_plan (digest : String → String)
    (cache : String → Except String (Option CacheDoc)) (db : UserStore)
    (apiKey : Option String) (net : String → NetOutcome) (authHeader : Option String)
    (req : NutritionRequest) (now : Int) : Except PyExc LLMResult × List Ev :=
  let cache_key := generate_cache_key digest (Json.obj req.toDict)
  match check_cache cache cache_key now with
  | Except.error e => (Except.error (PyExc.storageError e), [Ev.cacheRead cache_key])
  | Except.ok (some cached_response) => (Except.ok cached_response, [Ev.cacheRead cache_key])
  | Except.ok none =>
    let user_id := pyOr (get_token_from_header authHeader) ("anonymous")
    let user_doc := db user_id
    let request_data := nutrition_request_data req user_doc
    match call_llm_api db apiKey net now (LLMInput.nutritionIn request_data) with
    | (Except.ok response, llmTr) =>
      (Except.ok response,
       Ev.cacheRead cache_key :: Ev.resolveIdentity :: Ev.contextRead user_id :: llmTr
         ++ [Ev.cacheWrite cache_key, Ev.contextWrite user_id])
    | (Except.error e, llmTr) =>
      (Except.error (PyExc.httpException 500 (PyExc.str e)),
       Ev.cacheRead cache_key :: Ev.resolveIdentity :: Ev.contextRead user_id :: llmTr)

/-- process_chat_message (main.py lines 372-396): bearer-token override of the
body user_id, no caching, completion call (whose prompt construction reads
the context store), then the conversation write keyed by the effective
user_id.  Returns the outcome, the updated conversations collection and
the effect trace. -/
def process_chat_message (db : UserStore) (conv : ConvStore) (apiKey : Option String)
    (net : String → NetOutcome) (authHeader : Option String) (req : ChatRequest)
    (now : Int) : Except PyExc LLMResult × ConvStore × List Ev :=
  let token := get_token_from_header authHeader
  let request := chat_effective_request token req
  match call_llm_api db apiKey net now (LLMInput.chatIn request) with
  | (Except.ok response, llmTr) =>
    (Except.ok response,
     fun k => if k = request.user_id then
        some { last_message := request.message, last_response := response.output, timestamp := now }
      else conv k,
     Ev.resolveIdentity :: llmTr ++ [Ev.convWrite request.user_id])
  | (Except.error e, llmTr) =>
    (Except.error (PyExc.httpException 500 (PyExc.str e)), conv,
     Ev.resolveIdentity :: llmTr)

/-- handle_follow_up (main.py lines 470-478): completion call only. -/
def handle_follow_up (db : UserStore) (apiKey : Option String) (net : String → NetOutcome)
    (req : FollowUpRequest) (now : Int) : Except PyExc LLMResult × List Ev :=
  match call_llm_api db apiKey net now (LLMInput.followUpIn req) with
  | (Except.ok response, llmTr) => (Except.ok response, llmTr)
  | (Except.error e, llmTr) =>
    (Except.error (PyExc.httpException 500 (PyExc.str e)), llmTr)

/-- HTTP status the framework sends for a handler outcome: 200 on success, the
status of an escaping HTTPException, 500 for any other uncaught exception. -/
def httpStatusOf : Except PyExc LLMResult → Nat
  | Except.ok _ => 200
  | Except.error (PyExc.httpException st _) => st
  | Except.error (PyExc.storageError _) => 500

/-! ## Lemmas about key sorting -/

theorem sortJsonFields_eq_map (fs : List (String × Json)) :
    sortJsonFields fs = fs.map (fun p => (p.1, sortJson p.2)) := by
  induction fs with
  | nil => rfl
  | cons p t ih =>
    cases p
    simp [sortJsonFields, ih]

theorem eq_of_perm_sorted_nodupKeys (l₁ : List (String × Json)) :
    ∀ l₂, List.Perm l₁ l₂ → List.Sorted keyLE l₁ → List.Sorted keyLE l₂ →
      (l₁.map Prod.fst).Nodup → l₁ = l₂ := by
  induction l₁ with
  | nil =>
    intro l₂ hp _ _ _
    exact (hp.symm.eq_nil).symm
  | cons a t ih =>
    intro l₂ hp hs₁ hs₂ hnd
    cases l₂ with
    | nil => exact absurd hp.eq_nil (by simp)
    | cons b s =>
      have hbmem : b ∈ a :: t := hp.mem_iff.mpr (List.mem_cons_self b s)
      have hamem : a ∈ b :: s := hp.subset (List.mem_cons_self a t)
      have hab : keyLE a b := by
        rcases List.mem_cons.mp hbmem with h | h
        · exact le_of_eq (congrArg Prod.fst h.symm)
        · exact List.rel_of_sorted_cons hs₁ b h
      have hba : keyLE b a := by
        rcases List.mem_cons.mp hamem with h | h
        · exact le_of_eq (congrArg Prod.fst h.symm)
        · exact List.rel_of_sorted_cons hs₂ a h
      have hkey : b.1 = a.1 := le_antisymm hba hab
      have hb_eq : b = a := by
        rcases List.mem_cons.mp hbmem with h | h
        · exact h
        · exfalso
          have hmem : b.1 ∈ t.map Prod.fst := List.mem_map_of_mem Prod.fst h
          rw [hkey] at hmem
          simp only [List.map_cons, List.nodup_cons] at hnd
          exact hnd.1 hmem
      subst hb_eq
      have hts : List.Perm t s := hp.cons_inv
      have htail := ih s hts hs₁.of_cons hs₂.of_cons (by
        simp only [List.map_cons, List.nodup_cons] at hnd
        exact hnd.2)
      rw [htail]

/-! ## C7: fingerprint determinism under key reordering -/

/-- C7: the cache key generator is independent of payload key order: for any
digest function, any payload object, and any permutation of its (distinct)
keys, generate_cache_key yields the same fingerprint, because the payload
is serialized with keys sorted before the digest is applied. -/
theorem c7_fingerprint_key_order (digest : String → String)
    (fs gs : List (String × Json)) (hp : List.Perm fs gs)
    (hnd : (fs.map Prod.fst).Nodup) :
    generate_cache_key digest (Json.obj fs) = generate_cache_key digest (Json.obj gs) := by
  unfold generate_cache_key Json.dumps
  have hfields : List.Perm (sortJsonFields fs) (sortJsonFields gs) := by
    rw [sortJsonFields_eq_map, sortJsonFields_eq_map]
    exact hp.map _
  have hkeys : ((sortJsonFields fs).map Prod.fst).Nodup := by
    rw [sortJsonFields_eq_map, List.map_map]
    exact hnd
  have hsorted₁ := List.sorted_insertionSort keyLE (sortJsonFields fs)
  have hsorted₂ := List.sorted_insertionSort keyLE (sortJsonFields gs)
  have hperm : List.Perm (insortKeys (sortJsonFields fs)) (insortKeys (sortJsonFields gs)) :=
    (List.perm_insertionSort keyLE _).trans
      (hfields.trans (List.perm_insertionSort keyLE _).symm)
  have hkeys' : ((insortKeys (sortJsonFields fs)).map Prod.fst).Nodup :=
    (((List.perm_insertionSort keyLE (sortJsonFields fs)).map Prod.fst).nodup_iff).mpr hkeys
  have hEq : insortKeys (sortJsonFields fs) = insortKeys (sortJsonFields gs) :=
    eq_of_perm_sorted_nodupKeys _ _ hperm hsorted₁ hsorted₂ hkeys'
  have h₁ : sortJson (Json.obj fs) = Json.obj (insortKeys (sortJsonFields fs)) := by
    simp [sortJson]
  have h₂ : sortJson (Json.obj gs) = Json.obj (insortKeys (sortJsonFields gs)) := by
    simp [sortJson]
  rw [h₁, h₂, hEq]

/-- Witness for C7 at a concrete two-key payload and the identity digest. -/
theorem c7_witness :
    List.Perm [("b", Json.num 2), ("a", Json.num 1)] [("a", Json.num 1), ("b", Json.num 2)] ∧
    generate_cache_key (fun s => s) (Json.obj [("b", Json.num 2), ("a", Json.num 1)]) =
      generate_cache_key (fun s => s) (Json.obj [("a", Json.num 1), ("b", Json.num 2)]) :=
  ⟨List.Perm.swap ("a", Json.num 1) ("b", Json.num 2) [],
   c7_fingerprint_key_order (fun s => s) _ _
     (List.Perm.swap ("a", Json.num 1) ("b", Json.num 2) [])
     (by decide)⟩

/-! ## C2: storage errors during cache lookup -/

/-- C2 counterexample: a storage error raised by the underlying store during
check_cache is not turned into a cache miss; the lookup evaluates to the
propagated error and not to the absent result the claim requires. -/
theorem c2_counterexample :
    check_cache (fun _ => Except.error ("firestore unavailable")) ("k") 0 =
      Except.error ("firestore unavailable") ∧
    check_cache (fun _ => Except.error ("firestore unavailable")) ("k") 0 ≠
      Except.ok none := by
  constructor
  · rfl
  · decide

/-- C2 amended: check_cache has no error handling, so whenever the underlying
get raises, the same storage exception propagates to the caller of the
cache lookup (and surfaces as an HTTP 500, not as a cache miss). -/
theorem c2_amended (get : String → Except String (Option CacheDoc)) (cache_key : String)
    (now : Int) (e : String) (h : get cache_key = Except.error e) :
    check_cache get cache_key now = Except.error e := by
  simp [check_cache, h]

/-- Witness for C2 amended at a concrete raising store. -/
theorem c2_witness :
    (fun (_ : String) => (Except.error ("down") : Except String (Option CacheDoc))) ("k") =
      Except.error ("down") ∧
    check_cache (fun _ => Except.error ("down")) ("k") 7 = Except.error ("down") :=
  ⟨rfl, c2_amended (fun _ => Except.error ("down")) ("k") 7 ("down") rfl⟩

/-! ## C8: cache TTL round trip -/

/-- C8: storing a response and looking it up strictly less than CACHE_TIMEOUT
seconds later returns exactly that response; looking it up once the TTL has
elapsed returns absent even though the record still physically exists in
the store. -/
theorem c8_cache_ttl (store : String → Option CacheDoc) (cache_key : String)
    (r : LLMResult) (t₁ t₂ t₃ : Int) (hfresh : t₂ - t₁ < CACHE_TIMEOUT)
    (hstale : CACHE_TIMEOUT ≤ t₃ - t₁) :
    check_cache (liftStore (save_to_cache store cache_key r t₁)) cache_key t₂ =
      Except.ok (some r) ∧
    check_cache (liftStore (save_to_cache store cache_key r t₁)) cache_key t₃ =
      Except.ok none ∧
    save_to_cache store cache_key r t₁ cache_key =
      some { response := r, timestamp := t₁ } := by
  refine ⟨?_, ?_, ?_⟩
  · simp [check_cache, liftStore, save_to_cache, hfresh]
  · simp [check_cache, liftStore, save_to_cache, not_lt.mpr hstale]
  · simp [save_to_cache]

/-- Witness for C8 at concrete times 0, 86399 and 86400. -/
theorem c8_witness :
    ((86399 : Int) - 0 < CACHE_TIMEOUT ∧ CACHE_TIMEOUT ≤ (86400 : Int) - 0) ∧
    check_cache (liftStore (save_to_cache (fun _ => none) ("k")
        { output := "plan", model := "gpt-4o", timestamp := 0 } 0)) ("k") 86399 =
      Except.ok (some { output := "plan", model := "gpt-4o", timestamp := 0 }) ∧
    check_cache (liftStore (save_to_cache (fun _ => none) ("k")
        { output := "plan", model := "gpt-4o", timestamp := 0 } 0)) ("k") 86400 =
      Except.ok none :=
  ⟨⟨by decide, by decide⟩,
   (c8_cache_ttl (fun _ => none) ("k") { output := "plan", model := "gpt-4o", timestamp := 0 }
      0 86399 86400 (by decide) (by decide)).1,
   (c8_cache_ttl (fun _ => none) ("k") { output := "plan", model := "gpt-4o", timestamp := 0 }
      0 86399 86400 (by decide) (by decide)).2.1⟩

/-! ## Concrete sample data used in evaluations -/

/-- A concrete minimal NutritionRequest used to evaluate the pipeline. -/
def sampleNutritionReq : NutritionRequest :=
  { current_body_composition := [], target_goal := "g", activity_level := "a",
    daily_step_count := 1, resting_metabolic_rate := 2,
    macronutrient_preferences := "m", intermittent_fasting := false,
    num_meals_per_day := 3, eating_window := "w",
    protein_source_preference := "p", carb_tolerance := "c", fat_preference := "f",
    food_sensitivities := [], cultural_dietary_category := "d",
    cooking_ability := "k", meal_prep_frequency := "q", eating_out_frequency := "o",
    kitchen_access := "y", existing_supplements := [],
    willingness_to_supplement := false, water_intake_target := "t",
    caffeine_consumption := "n", electrolyte_needs := "e" }

/-- A concrete stored routine request with peak_mode Focus and challenges [sleep]. -/
def focusRoutineReq : RoutineRequest :=
  { peak_mode := "Focus", sleep_chronotype := "Bear", nature_of_commutes := "x",
    nature_of_traveling := "x", easiness_of_regimen := 5, observation_level := 5,
    challenges := ["sleep"] }

/-- The user_requests document holding focusRoutineReq. -/
def focusUserDoc : UserDoc :=
  { last_routine_request := some focusRoutineReq, last_nutrition_request := none,
    timestamp := 0 }

/-! ## C1: nutrition enrichment of peak mode and challenges -/

/-- C1: evaluation of the nutrition-prompt pipeline at the claimed scenario.
The caller has a stored last routine request with peak_mode Focus and
challenges [sleep]; the enrichment step of generate_nutrition_plan does add
both keys to request_data, and the prompt renders Focus, but the prompt
does not contain sleep: construct_nutrition_prompt guards the challenges
line with hasattr(data, 'challenges') on a dict, which is always False, so
the enriched challenges are never rendered.  This contradicts the claim
(and the stated purpose of the enrichment code at main.py lines 445-451). -/
theorem c1_enriched_challenges_not_rendered :
    (nutrition_request_data sampleNutritionReq (some focusUserDoc)).challenges =
      some ["sleep"] ∧
    strContains (construct_nutrition_prompt (fun _ => none)
      (nutrition_request_data sampleNutritionReq (some focusUserDoc))) ("Focus") = true ∧
    strContains (construct_nutrition_prompt (fun _ => none)
      (nutrition_request_data sampleNutritionReq (some focusUserDoc))) ("sleep") = false := by
  refine ⟨rfl, ?_, ?_⟩ <;> decide

/-! ## C6: rendering of food sensitivities and existing supplements -/

/-- C6 counterexample: at a NutritionRequest whose two lists are both empty,
the prompt renders the food sensitivities as None but renders the existing
supplements as the empty string, not as None, refuting the claim that each
of the two fields renders None when empty. -/
theorem c6_counterexample :
    strContains (construct_nutrition_prompt (fun _ => none)
      (NutritionRequest.dict sampleNutritionReq)) ("Food Sensitivities: None") = true ∧
    strContains (construct_nutrition_prompt (fun _ => none)
      (NutritionRequest.dict sampleNutritionReq)) ("Existing Supplements: None") = false ∧
    strContains (construct_nutrition_prompt (fun _ => none)
      (NutritionRequest.dict sampleNutritionReq))
      ("Existing Supplements: \nWater Intake Target") = true := by
  refine ⟨?_, ?_, ?_⟩ <;> decide

/-- C6 amended: for every NutritionData, the prompt renders the food
sensitivities comma-joined with a None fallback when the list is empty,
and renders the existing supplements comma-joined with no fallback, so an
empty supplement list renders as the empty string. -/
theorem c6_amended (db : UserStore) (d : NutritionData) :
    ∃ a b, construct_nutrition_prompt db d =
      a ++ ("\nFood Sensitivities: "
        ++ (if !d.food_sensitivities.isEmpty then commaJoin d.food_sensitivities else "None")
        ++ "\nExisting Supplements: " ++ commaJoin d.existing_supplements) ++ b := by
  refine ⟨"\nCreate a personalized nutrition plan for a client with the following parameters:\n\nTarget Goal: "
      ++ d.target_goal
      ++ "\nCurrent Body Composition: " ++ pyReprAtomDict d.current_body_composition
      ++ "\nActivity Level: " ++ d.activity_level
      ++ "\nDaily Step Count: " ++ toString d.daily_step_count
      ++ "\nResting Metabolic Rate: " ++ toString d.resting_metabolic_rate
      ++ "\nMacronutrient Preferences: " ++ d.macronutrient_preferences
      ++ "\nProtein Source Preference: " ++ d.protein_source_preference
      ++ "\nCarb Tolerance: " ++ d.carb_tolerance
      ++ "\nFat Preference: " ++ d.fat_preference,
    "\nWater Intake Target: " ++ d.water_intake_target
      ++ "\nPeak Mode: " ++ d.peak_mode.getD ("Physique")
      ++ "\n"
      ++ (if dict_hasattr ("challenges") && !(d.challenges.getD []).isEmpty then
            "Challenges: " ++ commaJoin (d.challenges.getD [])
          else "")
      ++ "\n\nInstead of presenting this as a structured nutrition document, respond in a personalized, conversational format organized by time periods of the day. Format your response like this:\n\nBased on your "
      ++ d.peak_mode.getD ("Physique")
      ++ " focus and your profile, here\x27s a personalized nutrition plan that aligns with your daily routine:\n\nPre-First Wind (Upon Waking Up) - This is the time to gently awaken your body:\n[Nutrition Strategy]: [Brief explanation connecting to their physiology and goals]\n* Choice 1: [Specific food/meal option with details]\n* Choice 2: [Alternative option with details]\nThis approach helps with [specific goal or challenge] by [explanation of benefits].\n\nFirst Wind (Morning Work Session) - When your energy begins to rise:\n[Continue this pattern for each time period]\n\nInclude a brief note about hydration and supplementation that integrates with their daily routine and supports their specific goals.\n\nYour response should feel like personalized coaching advice rather than a clinical nutrition document.\n", ?_⟩
  simp only [construct_nutrition_prompt, String.append_assoc]

/-! ## C4: purity of the prompt builders -/

/-- C4 counterexample: the chat prompt builder is not a pure function of its
payload; for the same ChatRequest it returns different strings under two
document stores that differ in the caller's stored context, because it
reads the user_requests document during prompt construction. -/
theorem c4_counterexample :
    construct_chat_prompt (fun _ => none)
      { message := "hi", user_id := "anonymous", conversation_history := [] } ≠
    construct_chat_prompt (fun _ => some focusUserDoc)
      { message := "hi", user_id := "anonymous", conversation_history := [] } := by
  decide

/-- C4 amended: the routine, nutrition and follow-up prompt builders are pure
functions of the request payload: for any fixed payload they return the
same string whatever the contents of the external document store, and they
perform no network or storage access; the chat builder is the exception,
as witnessed by the counterexample. -/
theorem c4_amended (db₁ db₂ : UserStore) (r : RoutineRequest) (n : NutritionData)
    (f : FollowUpRequest) :
    construct_routine_prompt db₁ r = construct_routine_prompt db₂ r ∧
    construct_nutrition_prompt db₁ n = construct_nutrition_prompt db₂ n ∧
    construct_follow_up_prompt db₁ f = construct_follow_up_prompt db₂ f :=
  ⟨rfl, rfl, rfl⟩

/-! ## C3: transport errors and HTTP 503 -/

/-- C3: evaluation at a transport failure on POST /api/routine.  call_llm_api
raises HTTPException 503 for an aiohttp.ClientError, but the handler's
catch-all except converts it into HTTPException 500 whose detail embeds
the stringified 503, so the response status is 500, not the 503 the claim
(and the 503 branch of call_llm_api itself) prescribes. -/
theorem c3_transport_error_surfaces_500 :
    (generate_routine (fun _ => "k") (fun _ => Except.ok none) (fun _ => none)
        (some ("sk")) (fun _ => NetOutcome.transport ("connection refused")) none
        focusRoutineReq 0).1 =
      Except.error (PyExc.httpException 500
        ("503: Failed to connect to LLM API: connection refused")) ∧
    httpStatusOf (generate_routine (fun _ => "k") (fun _ => Except.ok none) (fun _ => none)
        (some ("sk")) (fun _ => NetOutcome.transport ("connection refused")) none
        focusRoutineReq 0).1 = 500 := by
  refine ⟨?_, ?_⟩ <;> decide

/-! ## C5: identity resolution versus storage access -/

/-- C5 counterexample: on a POST /api/routine with a cache miss, the handler
reads (and later writes) the fingerprint-keyed cache before it ever reads
the bearer token: the trace shows storage access before the identity
resolution event, which does occur later in the same run. -/
theorem c5_counterexample :
    storageBeforeIdentity (generate_routine (fun _ => "k") (fun _ => Except.ok none)
      (fun _ => none) (some ("sk")) (fun _ => NetOutcome.ok ("out") ("gpt-4o"))
      (some ("Bearer tok")) focusRoutineReq 0).2 = true ∧
    Ev.resolveIdentity ∈ (generate_routine (fun _ => "k") (fun _ => Except.ok none)
      (fun _ => none) (some ("sk")) (fun _ => NetOutcome.ok ("out") ("gpt-4o"))
      (some ("Bearer tok")) focusRoutineReq 0).2 := by
  refine ⟨?_, ?_⟩ <;> decide

/-- C5 amended: identity resolution does precede every access to the
per-identity context store (user_requests and conversations) on every
endpoint, and on chat it precedes all storage access; but on routine and
nutrition the fingerprint-keyed response-cache lookup happens before
identity resolution, as the counterexample shows.  Follow-up performs no
storage access at all. -/
theorem c5_amended (digest : String → String) (cache : String → Except String (Option CacheDoc))
    (db : UserStore) (conv : ConvStore) (apiKey : Option String) (net : String → NetOutcome)
    (authHeader : Option String) (rreq : RoutineRequest) (nreq : NutritionRequest)
    (creq : ChatRequest) (freq : FollowUpRequest) (now : Int) :
    contextBeforeIdentity (generate_routine digest cache db apiKey net authHeader rreq now).2 =
      false ∧
    contextBeforeIdentity
      (generate_nutrition_plan digest cache db apiKey net authHeader nreq now).2 = false ∧
    storageBeforeIdentity (process_chat_message db conv apiKey net authHeader creq now).2.2 =
      false ∧
    (handle_follow_up db apiKey net freq now).2.all (fun e => !e.isStorage) = true := by
  refine ⟨?_, ?_, ?_, ?_⟩
  · cases hc : check_cache cache (generate_cache_key digest (Json.obj rreq.toDict)) now with
    | error e =>
      simp [generate_routine, hc, contextBeforeIdentity, List.takeWhile, Ev.isContext,
        Ev.isResolve]
    | ok o =>
      cases o with
      | some cached =>
        simp [generate_routine, hc, contextBeforeIdentity, List.takeWhile, Ev.isContext,
          Ev.isResolve]
      | none =>
        cases apiKey with
        | none =>
          simp [generate_routine, call_llm_api, hc, contextBeforeIdentity, Ev.isContext,
            Ev.isResolve]
        | some k =>
          cases hn : net (construct_routine_prompt db rreq) <;>
            simp [generate_routine, call_llm_api, hc, hn, contextBeforeIdentity, Ev.isContext,
              Ev.isResolve]
  · cases hc : check_cache cache (generate_cache_key digest (Json.obj nreq.toDict)) now with
    | error e =>
      simp [generate_nutrition_plan, hc, contextBeforeIdentity, List.takeWhile, Ev.isContext,
        Ev.isResolve]
    | ok o =>
      cases o with
      | some cached =>
        simp [generate_nutrition_plan, hc, contextBeforeIdentity, List.takeWhile, Ev.isContext,
          Ev.isResolve]
      | none =>
        cases apiKey with
        | none =>
          simp [generate_nutrition_plan, call_llm_api, hc, contextBeforeIdentity, Ev.isContext,
            Ev.isResolve]
        | some k =>
          cases hn : net (construct_nutrition_prompt db (nutrition_request_data nreq
              (db (pyOr (get_token_from_header authHeader) ("anonymous"))))) <;>
            simp [generate_nutrition_plan, call_llm_api, hc, hn, contextBeforeIdentity,
              Ev.isContext, Ev.isResolve]
  · cases apiKey with
    | none =>
      simp [process_chat_message, call_llm_api, storageBeforeIdentity, Ev.isStorage, Ev.isResolve]
    | some k =>
      cases hn : net (construct_chat_prompt db
          (chat_effective_request (get_token_from_header authHeader) creq)) <;>
        simp [process_chat_message, call_llm_api, hn, storageBeforeIdentity, Ev.isStorage,
          Ev.isResolve]
  · cases apiKey with
    | none => simp [handle_follow_up, call_llm_api, Ev.isStorage]
    | some k =>
      cases hn : net (construct_follow_up_prompt db freq) <;>
        simp [handle_follow_up, call_llm_api, hn, Ev.isStorage]

/-! ## C9: missing API key -/

/-- C9 counterexample: with no API key configured but a fresh cache entry for
the request fingerprint, POST /api/routine returns the cached response with
status 200 and no error, contradicting the claim that every request fails
with HTTP 500 when the key is missing. -/
theorem c9_counterexample :
    httpStatusOf (generate_routine (fun _ => "k")
      (fun _ => Except.ok (some { response := { output := "cached", model := "gpt-4o", timestamp := 0 }, timestamp := 0 }))
      (fun _ => none) none (fun _ => NetOutcome.transport ("down")) none
      focusRoutineReq 0).1 = 200 ∧
    countLLM (generate_routine (fun _ => "k")
      (fun _ => Except.ok (some { response := { output := "cached", model := "gpt-4o", timestamp := 0 }, timestamp := 0 }))
      (fun _ => none) none (fun _ => NetOutcome.transport ("down")) none
      focusRoutineReq 0).2 = 0 := by
  refine ⟨?_, ?_⟩ <;> decide

/-- C9 amended: with no API key configured, no outbound network call to the
LLM provider is ever attempted on any endpoint; chat and follow-up always
fail with HTTP 500, and routine and nutrition fail with HTTP 500 unless
the cache lookup returns a hit, in which case the cached response is
returned instead (as the counterexample shows). -/
theorem c9_amended (digest : String → String) (cache : String → Except String (Option CacheDoc))
    (db : UserStore) (conv : ConvStore) (net : String → NetOutcome)
    (authHeader : Option String) (rreq : RoutineRequest) (nreq : NutritionRequest)
    (creq : ChatRequest) (freq : FollowUpRequest) (now : Int) :
    (countLLM (generate_routine digest cache db none net authHeader rreq now).2 = 0 ∧
      (httpStatusOf (generate_routine digest cache db none net authHeader rreq now).1 = 500 ∨
        ∃ c, (generate_routine digest cache db none net authHeader rreq now).1 = Except.ok c ∧
          check_cache cache (generate_cache_key digest (Json.obj rreq.toDict)) now =
            Except.ok (some c))) ∧
    (countLLM (generate_nutrition_plan digest cache db none net authHeader nreq now).2 = 0 ∧
      (httpStatusOf (generate_nutrition_plan digest cache db none net authHeader nreq now).1 =
          500 ∨
        ∃ c, (generate_nutrition_plan digest cache db none net authHeader nreq now).1 =
            Except.ok c ∧
          check_cache cache (generate_cache_key digest (Json.obj nreq.toDict)) now =
            Except.ok (some c))) ∧
    (countLLM (process_chat_message db conv none net authHeader creq now).2.2 = 0 ∧
      httpStatusOf (process_chat_message db conv none net authHeader creq now).1 = 500) ∧
    (countLLM (handle_follow_up db none net freq now).2 = 0 ∧
      httpStatusOf (handle_follow_up db none net freq now).1 = 500) := by
  refine ⟨?_, ?_, ?_, ?_⟩
  · cases hc : check_cache cache (generate_cache_key digest (Json.obj rreq.toDict)) now with
    | error e =>
      refine ⟨?_, Or.inl ?_⟩
      · simp [generate_routine, hc, countLLM, Ev.isLLM]
      · simp [generate_routine, hc, httpStatusOf]
    | ok o =>
      cases o with
      | some cached =>
        refine ⟨?_, Or.inr ⟨cached, ?_, rfl⟩⟩
        · simp [generate_routine, hc, countLLM, Ev.isLLM]
        · simp [generate_routine, hc]
      | none =>
        refine ⟨?_, Or.inl ?_⟩
        · simp [generate_routine, call_llm_api, hc, countLLM, Ev.isLLM]
        · simp [generate_routine, call_llm_api, hc, httpStatusOf]
  · cases hc : check_cache cache (generate_cache_key digest (Json.obj nreq.toDict)) now with
    | error e =>
      refine ⟨?_, Or.inl ?_⟩
      · simp [generate_nutrition_plan, hc, countLLM, Ev.isLLM]
      · simp [generate_nutrition_plan, hc, httpStatusOf]
    | ok o =>
      cases o with
      | some cached =>
        refine ⟨?_, Or.inr ⟨cached, ?_, rfl⟩⟩
        · simp [generate_nutrition_plan, hc, countLLM, Ev.isLLM]
        · simp [generate_nutrition_plan, hc]
      | none =>
        refine ⟨?_, Or.inl ?_⟩
        · simp [generate_nutrition_plan, call_llm_api, hc, countLLM, Ev.isLLM]
        · simp [generate_nutrition_plan, call_llm_api, hc, httpStatusOf]
  · refine ⟨?_, ?_⟩ <;>
      simp [process_chat_message, call_llm_api, countLLM, Ev.isLLM, httpStatusOf]
  · refine ⟨?_, ?_⟩ <;>
      simp [handle_follow_up, call_llm_api, countLLM, Ev.isLLM, httpStatusOf]

/-! ## C10: chat caller identity -/

/-- C10: on POST /api/chat the effective caller identity is the body-supplied
user_id verbatim when no (truthy) bearer token is present - with the
pydantic default anonymous when the field is omitted - and the token value
when one is present.  That one identity is the id of every context read
and conversation write in the handler trace, the conversation write
touches no other document, and the chat prompt depends on the document
store only through that identity's document. -/
theorem c10_chat_identity (db : UserStore) (conv : ConvStore) (apiKey : Option String)
    (net : String → NetOutcome) (authHeader : Option String) (now : Int)
    (req : ChatRequest) (effId : String)
    (heff : effId = (chat_effective_request (get_token_from_header authHeader) req).user_id) :
    (∀ m, ({ message := m } : ChatRequest).user_id = "anonymous") ∧
    (get_token_from_header authHeader = none → effId = req.user_id) ∧
    (∀ t, get_token_from_header authHeader = some t → t ≠ "" → effId = t) ∧
    ((process_chat_message db conv apiKey net authHeader req now).2.2.all
      (fun e => match e with
        | Ev.contextRead i => i == effId
        | Ev.contextWrite i => i == effId
        | Ev.convWrite i => i == effId
        | _ => true) = true) ∧
    (Ev.contextRead effId ∈ (process_chat_message db conv apiKey net authHeader req now).2.2) ∧
    (∀ k, k ≠ effId → (process_chat_message db conv apiKey net authHeader req now).2.1 k =
      conv k) ∧
    (∀ db₂ : UserStore, db₂ effId = db effId →
      construct_chat_prompt db₂ (chat_effective_request (get_token_from_header authHeader) req) =
        construct_chat_prompt db
          (chat_effective_request (get_token_from_header authHeader) req)) := by
  subst heff
  refine ⟨fun m => rfl, ?_, ?_, ?_, ?_, ?_, ?_⟩
  · intro h
    rw [h]
    exact rfl
  · intro t ht hne
    rw [ht]
    simp [chat_effective_request, hne]
  · cases apiKey with
    | none => simp [process_chat_message, call_llm_api]
    | some k =>
      cases hn : net (construct_chat_prompt db
          (chat_effective_request (get_token_from_header authHeader) req)) <;>
        simp [process_chat_message, call_llm_api, hn]
  · cases apiKey with
    | none => simp [process_chat_message, call_llm_api]
    | some k =>
      cases hn : net (construct_chat_prompt db
          (chat_effective_request (get_token_from_header authHeader) req)) <;>
        simp [process_chat_message, call_llm_api, hn]
  · intro k hk
    cases apiKey with
    | none => simp [process_chat_message, call_llm_api]
    | some kk =>
      cases hn : net (construct_chat_prompt db
          (chat_effective_request (get_token_from_header authHeader) req)) <;>
        simp [process_chat_message, call_llm_api, hn, hk]
  · intro db₂ h
    simp only [construct_chat_prompt, h]

/-- Witness for C10 at a concrete bearer token tok overriding the omitted
body user_id. -/
theorem c10_witness :
    ("tok" : String) =
      (chat_effective_request (get_token_from_header (some ("Bearer tok")))
        { message := "hello" }).user_id ∧
    Ev.contextRead ("tok") ∈ (process_chat_message (fun _ => none) (fun _ => none) none
      (fun _ => NetOutcome.transport ("x")) (some ("Bearer tok")) { message := "hello" }
      0).2.2 :=
  ⟨by decide,
   (c10_chat_identity (fun _ => none) (fun _ => none) none
      (fun _ => NetOutcome.transport ("x")) (some ("Bearer tok")) 0 { message := "hello" }
      ("tok") (by decide)).2.2.2.2.1⟩
